import Mathlib

/-!
Verification of the WebFAST robustness test harness
(`src/scripts/robustness.js`).

The script defines a browser-side class `RobustnessTestManager` holding a
dynamic-id counter, an event log (`testResults`: a string-keyed object,
insertion ordered, mapping an event-type name to the ordered array of
recorded payloads), a session start time (`startTime`), and a set of DOM
probe handlers.  We embed the manager state and each handler as pure
functions on an explicit state record:

* `Date.now()` and `new Date()` become explicit `Nat` millisecond
  arguments at each call site;
* the DOM elements the script reads or writes (the dynamic-id button's
  `id` and label, the ARIA button's `role`/`tagName`/text, the
  stress-test container and its generated children) become fields of the
  state;
* fire-and-forget `setTimeout` reverts of purely visual styling
  (background colours, the ripple span, the 2s ARIA text revert) touch
  nothing the specification claims talk about and are outside the
  modelled state;
* `console.log`, `Blob`/`URL` plumbing and the transient anchor element
  used for the download are side effects outside the manager state; the
  exporter returns the serialized object and file name instead.
-/

/-- Payload of one recorded event.  Each handler in `robustness.js` logs
its own field set; we model the payloads as a tagged union with one
variant per event type the script can emit. -/
inductive EventData where
  | dynamicIdChange (oldId newId : String) (timestamp : Nat)
  | ariaButtonClick (role tagName : String) (timestamp : Nat)
  | nestedElementClick (elementIndex nestingLevel : Nat) (cssPath : String) (timestamp : Nat)
  | unstableListClick (itemIndex : Nat) (itemText : String) (timestamp : Nat)
  | stressTestClick (sectionIndex subsectionIndex : Nat) (timestamp : Nat)
  | stressTestPerformed (timestamp : Nat) (elementsCreated : Nat)
deriving DecidableEq

/-- `this.testResults`: a JS object used as an insertion-ordered map from
event-type name to the array of recorded payloads.  Keys are unique by
construction (`logEvent` only appends a new key when it is absent). -/
abbrev EventLog := List (String × List EventData)

/-- `logEvent(eventType, data)` (robustness.js lines 202-214): create the
key with an empty array if absent (new keys go last, matching JS object
insertion order), then push `data` onto that key's array. -/
def logEvent (eventType : String) (data : EventData) : EventLog → EventLog
  | [] => [(eventType, [data])]
  | (k, es) :: rest =>
      if k = eventType then (k, es ++ [data]) :: rest
      else (k, es) :: logEvent eventType data rest

/-- Read the sequence recorded under one event type (JS property lookup
`this.testResults[ty]`, empty when absent). -/
def lookupLog : EventLog → String → List EventData
  | [], _ => []
  | (k, es) :: rest, ty => if k = ty then es else lookupLog rest ty

/-- `Object.values(this.testResults).reduce((sum, events) => sum + events.length, 0)`
(lines 227 and 253). -/
def totalEventCount (log : EventLog) : Nat :=
  log.foldl (fun sum p => sum + p.2.length) 0

/-- The three numbers `updateMetricsDisplay` writes into the metrics
container (lines 223-245). -/
structure MetricsDisplay where
  totalEvents : Nat
  eventTypes : Nat
  durationSecs : Nat
deriving DecidableEq

/-- `updateMetricsDisplay()` (lines 223-245): total event count, key
count, and `Math.round(testDuration / 1000)` where
`testDuration = Date.now() - this.startTime`.  For an integer number of
milliseconds `d ≥ 0`, `Math.round(d / 1000) = (d + 500) / 1000` in
natural division (round half up). -/
def updateMetricsDisplay (log : EventLog) (startTime now : Nat) : MetricsDisplay :=
  { totalEvents := totalEventCount log
  , eventTypes := log.length
  , durationSecs := (now - startTime + 500) / 1000 }

/-- A DOM element attached under the document body: its tag name, its
`id` attribute (`""` models an absent id, which is falsy in JS), its
class token list (the `class` attribute is nonempty, i.e. `className` is
truthy, exactly when the token list is nonempty), and its parent chain
ending at `body`. -/
inductive DomNode where
  | body : DomNode
  | node (tagName idAttr : String) (classes : List String) (parent : DomNode)
deriving DecidableEq

/-- Number of non-body elements in the chain starting at the given node
(the loop `while (parent && parent !== document.body)` of
`calculateNestingLevel`). -/
def ancestorSteps : DomNode → Nat
  | .body => 0
  | .node _ _ _ p => ancestorSteps p + 1

/-- `calculateNestingLevel(element)` (lines 115-123): walk
`parentElement` from the element, counting until `document.body`. -/
def calculateNestingLevel : DomNode → Nat
  | .body => 0
  | .node _ _ _ p => ancestorSteps p

/-- One path segment of `generateCssPath` (lines 131-137):
`tagName.toLowerCase()`, then `#id` when `current.id` is truthy, else
`.` + `classList` joined by `.` when `current.className` is truthy. -/
def selectorFor (tagName idAttr : String) (classes : List String) : String :=
  let selector := tagName.toLower
  if idAttr ≠ "" then selector ++ "#" ++ idAttr
  else if classes ≠ [] then selector ++ "." ++ String.intercalate "." classes
  else selector

/-- The segment list built by the `path.unshift` loop of
`generateCssPath`: segments from the topmost non-body ancestor down to
the element itself. -/
def cssPathSegments : DomNode → List String
  | .body => []
  | .node t i c p => cssPathSegments p ++ [selectorFor t i c]

/-- `generateCssPath(element)` (lines 126-144): `path.join(' > ')`. -/
def generateCssPath (e : DomNode) : String :=
  String.intercalate " > " (cssPathSegments e)

/-- The chain of elements from the element up to (and excluding) the
document body, topmost last consed first: the element itself followed by
its proper non-body ancestors. -/
def chainNodes : DomNode → List DomNode
  | .body => []
  | .node t i c p => DomNode.node t i c p :: chainNodes p

/-- Modelled from the claim wording for the CSS path: each segment is
the lower-cased tag name plus `#id` when the element has an id, else the
`.class` list when it has classes, else the tag name alone.  Compared
against `selectorFor`, which is translated from the source. -/
def claimSegment : DomNode → String
  | .body => ""
  | .node t i c _ =>
      t.toLower ++ (if i ≠ "" then "#" ++ i
        else if c ≠ [] then "." ++ String.intercalate "." c else "")

/-- A leaf button generated by `performStressTest`; it stores the
section/subsection indices its click listener closes over. -/
structure StressButton where
  sectionIndex : Nat
  subsectionIndex : Nat
deriving DecidableEq

/-- A generated `stress-subsection-j` div; it contains exactly one
button. -/
structure StressSubsection where
  className : String
  button : StressButton
deriving DecidableEq

/-- A generated `stress-section-i` div. -/
structure StressSection where
  className : String
  subsections : List StressSubsection
deriving DecidableEq

/-- The DOM tree `performStressTest` builds into the container (lines
169-193): 5 sections, each with 3 subsections, each holding a single
button wired to log its `(i, j)` indices. -/
def buildStressSections : List StressSection :=
  (List.range 5).map fun i =>
    { className := "stress-section-" ++ toString i
    , subsections := (List.range 3).map fun j =>
        { className := "stress-subsection-" ++ toString j
        , button := { sectionIndex := i, subsectionIndex := j } } }

def emptySection : StressSection := { className := "", subsections := [] }

def emptySubsection : StressSubsection :=
  { className := "", button := { sectionIndex := 0, subsectionIndex := 0 } }

/-- The manager's mutable state plus the DOM it reads and writes:
`dynamicIdCounter`, `testResults` and `startTime` are the instance
fields; `buttonId`/`buttonLabel` are the dynamic-id button's `id` and
`innerHTML`; `ariaRole`/`ariaTagName`/`ariaText` belong to the
`[role="button"]` element; the stress-test container may be absent
(`stressContainerPresent = false`) and otherwise holds the generated
sections. -/
structure ManagerState where
  dynamicIdCounter : Nat
  testResults : EventLog
  startTime : Nat
  buttonId : String
  buttonLabel : String
  ariaRole : String
  ariaTagName : String
  ariaText : String
  stressContainerPresent : Bool
  stressContents : List StressSection
deriving DecidableEq

/-- The state right after `new RobustnessTestManager()` together with
`initializeMetrics()` at time `t0`: counter 1, empty log, and the page's
initial dynamic-id button (`id="dynamic-id-btn"`, label
`🔄 Dynamic ID Button`). -/
def initState (t0 : Nat) : ManagerState :=
  { dynamicIdCounter := 1
  , testResults := []
  , startTime := t0
  , buttonId := "dynamic-id-btn"
  , buttonLabel := "🔄 Dynamic ID Button"
  , ariaRole := "button"
  , ariaTagName := "DIV"
  , ariaText := "🎯 ARIA Role Button"
  , stressContainerPresent := true
  , stressContents := [] }

/-- The dynamic-id button's click handler (lines 23-43): synthesize
`dynamic-btn-<counter>`, post-increment the counter, replace the id and
label, and log a `dynamic-id-change` record.  The 500ms background-color
flash is visual only. -/
def dynamicIdClick (s : ManagerState) (t : Nat) : ManagerState :=
  let oldId := s.buttonId
  let newId := "dynamic-btn-" ++ toString s.dynamicIdCounter
  { s with
    dynamicIdCounter := s.dynamicIdCounter + 1
  , buttonId := newId
  , buttonLabel := "🔄 Dynamic ID Button (ID: " ++ newId ++ ")"
  , testResults := logEvent "dynamic-id-change" (.dynamicIdChange oldId newId t) s.testResults }

/-- A sequence of dynamic-id clicks at the given timestamps. -/
def runClicks (s : ManagerState) : List Nat → ManagerState
  | [] => s
  | t :: ts => runClicks (dynamicIdClick s t) ts

/-- The ARIA button's click handler (lines 51-62): log
`aria-button-click` with the element's role attribute and tag name, and
set the confirmation text (the 2000ms revert timer is outside the
modelled state). -/
def ariaClick (s : ManagerState) (t : Nat) : ManagerState :=
  { s with
    testResults := logEvent "aria-button-click"
      (.ariaButtonClick s.ariaRole s.ariaTagName t) s.testResults
  , ariaText := "✅ ARIA Button Clicked!" }

/-- The ARIA button's keydown handler (lines 65-70): on `Enter` or space
it prevents the default action and calls `ariaButton.click()`, which
runs the click handler; any other key does nothing. -/
def ariaKeydown (key : String) (s : ManagerState) (t : Nat) : ManagerState :=
  if key = "Enter" ∨ key = " " then ariaClick s t else s

/-- A nested span's click handler (lines 78-90): log
`nested-element-click` with the element's loop index, nesting level and
CSS path (the ripple span is visual only; `stopPropagation` means only
this handler runs). -/
def nestedClick (s : ManagerState) (elementIndex : Nat) (e : DomNode) (t : Nat) : ManagerState :=
  { s with testResults :=
               logEvent "nested-element-click"
                 (.nestedElementClick elementIndex (calculateNestingLevel e) (generateCssPath e) t)
                 s.testResults }

/-- An unstable-list item's click handler (lines 98-110): log
`unstable-list-click` with the item's index and trimmed text (the 1000ms
highlight is visual only). -/
def listClick (s : ManagerState) (itemIndex : Nat) (itemText : String) (t : Nat) : ManagerState :=
  { s with testResults :=
               logEvent "unstable-list-click"
                 (.unstableListClick itemIndex itemText.trim t) s.testResults }

/-- The click listener attached to a generated stress-test button (lines
180-186): log `stress-test-click` with the indices the closure captured. -/
def clickStressButton (s : ManagerState) (b : StressButton) (t : Nat) : ManagerState :=
  { s with testResults :=
               logEvent "stress-test-click"
                 (.stressTestClick b.sectionIndex b.subsectionIndex t) s.testResults }

/-- `performStressTest()` (lines 161-199): return unchanged when the
container is absent; otherwise clear the container
(`container.innerHTML = ''`), build the 5 × 3 × 1 tree, then log a
single `stress-test-performed` record with `elementsCreated: 15`. -/
def performStressTest (s : ManagerState) (t : Nat) : ManagerState :=
  if s.stressContainerPresent then
    let cleared := { s with stressContents := [] }
    let built := { cleared with stressContents := buildStressSections }
    { built with testResults :=
                     logEvent "stress-test-performed" (.stressTestPerformed t 15)
                       built.testResults }
  else s

/-- The object `exportTestResults` serializes (lines 249-254). -/
structure ExportPackage where
  testResults : EventLog
  testDuration : Nat
  timestamp : String
  totalEvents : Nat
deriving DecidableEq

/-- Pad a decimal numeral with leading zeros to the given width. -/
def padLeftZeros (width n : Nat) : String :=
  let s := toString n
  String.mk (List.replicate (width - s.length) '0') ++ s

/-- Proleptic-Gregorian civil date `(year, month, day)` from a count of
days since 1970-01-01 (the days-from-civil inverse used by
`Date.prototype.toISOString`); valid for dates on or after 1970. -/
def civilFromDays (z : Nat) : Nat × Nat × Nat :=
  let z := z + 719468
  let era := z / 146097
  let doe := z % 146097
  let yoe := (doe - doe / 1460 + doe / 36524 - doe / 146096) / 365
  let y := yoe + era * 400
  let doy := doe - (365 * yoe + yoe / 4 - yoe / 100)
  let mp := (5 * doy + 2) / 153
  let d := doy - (153 * mp + 2) / 5 + 1
  let m := if mp < 10 then mp + 3 else mp - 9
  (if m ≤ 2 then y + 1 else y, m, d)

/-- `new Date(ms).toISOString()` for a nonnegative epoch-millisecond
time: `YYYY-MM-DDTHH:MM:SS.sssZ`. -/
def toISOString (ms : Nat) : String :=
  let days := ms / 86400000
  let msod := ms % 86400000
  let ymd := civilFromDays days
  padLeftZeros 4 ymd.1 ++ "-" ++ padLeftZeros 2 ymd.2.1 ++ "-" ++ padLeftZeros 2 ymd.2.2
    ++ "T" ++ padLeftZeros 2 (msod / 3600000)
    ++ ":" ++ padLeftZeros 2 (msod % 3600000 / 60000)
    ++ ":" ++ padLeftZeros 2 (msod % 60000 / 1000)
    ++ "." ++ padLeftZeros 3 (msod % 1000) ++ "Z"

/-- `exportTestResults()` (lines 248-268).  The three `Date.now()` /
`new Date()` reads are passed explicitly in source order: `t1` for
`testDuration`, `t2` for the ISO timestamp, `t3` for the file name.
Returns the serialized object, the download file name, and the manager
state after the call — the function only reads `this.testResults` and
`this.startTime` and assigns no instance field, so that state is the
input state. -/
def exportTestResults (t1 t2 t3 : Nat) (s : ManagerState) :
    (ExportPackage × String) × ManagerState :=
  let results : ExportPackage :=
    { testResults := s.testResults
    , testDuration := t1 - s.startTime
    , timestamp := toISOString t2
    , totalEvents := totalEventCount s.testResults }
  let fname := "webfast-robustness-test-" ++ toString t3 ++ ".json"
  ((results, fname), s)

/-- Iterate the state effect of `exportTestResults` `n` times. -/
def exportNTimes : Nat → ManagerState → ManagerState
  | 0, s => s
  | n + 1, s => exportNTimes n (exportTestResults 0 0 0 s).2

/-- The element lookup in `resetTests` (lines 278-279):
`document.getElementById('dynamic-id-btn') ||
document.querySelector('[id^="dynamic-btn-"]')` finds the button exactly
when its current id is `dynamic-id-btn` or starts with `dynamic-btn-`. -/
def idFindable (id : String) : Bool :=
  id == "dynamic-id-btn" || "dynamic-btn-".data.isPrefixOf id.data

/-- `resetTests()` (lines 271-286): clear the log, reset the counter to
1 and the start time to now, and — when the lookup finds the button —
restore its id and label. -/
def resetTests (s : ManagerState) (now : Nat) : ManagerState :=
  let s1 := { s with testResults := ([] : EventLog), dynamicIdCounter := 1, startTime := now }
  if idFindable s1.buttonId then
    { s1 with buttonId := "dynamic-id-btn", buttonLabel := "🔄 Dynamic ID Button" }
  else s1

/-- One user interaction with the harness, carrying the wall-clock
reads its handler performs. -/
inductive UiAction where
  | dynClick (t : Nat)
  | ariaClickAct (t : Nat)
  | ariaKeyAct (key : String) (t : Nat)
  | nestedClickAct (elementIndex : Nat) (e : DomNode) (t : Nat)
  | listClickAct (itemIndex : Nat) (itemText : String) (t : Nat)
  | stressAct (t : Nat)
  | stressBtnAct (b : StressButton) (t : Nat)
  | exportAct (t1 t2 t3 : Nat)
  | resetAct (t : Nat)

/-- Dispatch one interaction to its handler. -/
def step (s : ManagerState) : UiAction → ManagerState
  | .dynClick t => dynamicIdClick s t
  | .ariaClickAct t => ariaClick s t
  | .ariaKeyAct key t => ariaKeydown key s t
  | .nestedClickAct i e t => nestedClick s i e t
  | .listClickAct i txt t => listClick s i txt t
  | .stressAct t => performStressTest s t
  | .stressBtnAct b t => clickStressButton s b t
  | .exportAct t1 t2 t3 => (exportTestResults t1 t2 t3 s).2
  | .resetAct t => resetTests s t

/-- Run a sequence of interactions. -/
def run (s : ManagerState) : List UiAction → ManagerState
  | [] => s
  | a :: as => run (step s a) as

/-- Fold a list of `logEvent` calls over a log. -/
def logMany (calls : List (String × EventData)) (log : EventLog) : EventLog :=
  calls.foldl (fun l c => logEvent c.1 c.2 l) log

/-! ## Basic facts about the event log -/

theorem foldlCount_eq (log : EventLog) (acc : Nat) :
    log.foldl (fun sum p => sum + p.2.length) acc
      = acc + (log.map fun p => p.2.length).sum := by
  induction log generalizing acc with
  | nil => simp
  | cons p rest ih => simp [List.foldl, ih, Nat.add_assoc]

theorem totalEventCount_eq_sum (log : EventLog) :
    totalEventCount log = (log.map fun p => p.2.length).sum := by
  simpa using foldlCount_eq log 0

theorem sum_logEvent (ty : String) (d : EventData) (log : EventLog) :
    ((logEvent ty d log).map fun p => p.2.length).sum
      = (log.map fun p => p.2.length).sum + 1 := by
  induction log with
  | nil => simp [logEvent]
  | cons p rest ih =>
      obtain ⟨k, es⟩ := p
      by_cases hk : k = ty
      · simp [logEvent, hk]
        omega
      · simp [logEvent, hk, ih]
        omega

theorem logMany_cons (c : String × EventData) (cs : List (String × EventData)) (log : EventLog) :
    logMany (c :: cs) log = logMany cs (logEvent c.1 c.2 log) := rfl

theorem sum_logMany (calls : List (String × EventData)) (log : EventLog) :
    ((logMany calls log).map fun p => p.2.length).sum
      = (log.map fun p => p.2.length).sum + calls.length := by
  induction calls generalizing log with
  | nil => simp [logMany]
  | cons c cs ih =>
      rw [logMany_cons, ih, sum_logEvent]
      simp
      omega

theorem lookupLog_logEvent_self (ty : String) (d : EventData) (log : EventLog) :
    lookupLog (logEvent ty d log) ty = lookupLog log ty ++ [d] := by
  induction log with
  | nil => simp [logEvent, lookupLog]
  | cons p rest ih =>
      obtain ⟨k, es⟩ := p
      by_cases hk : k = ty
      · simp [logEvent, lookupLog, hk]
      · simp [logEvent, lookupLog, hk, ih]

/-! ## String facts for the reset lookup -/

theorem stringData_append (a b : String) : (a ++ b).data = a.data ++ b.data := by
  cases a
  cases b
  rfl

theorem isPrefixOf_append_self (l m : List Char) : l.isPrefixOf (l ++ m) = true := by
  induction l with
  | nil => simp [List.isPrefixOf]
  | cons a as ih => simp [List.isPrefixOf, ih]

theorem idFindable_dynamic (x : String) :
    idFindable ("dynamic-btn-" ++ x) = true := by
  have h : "dynamic-btn-".data.isPrefixOf ("dynamic-btn-" ++ x).data = true := by
    rw [stringData_append]
    exact isPrefixOf_append_self _ _
  simp [idFindable, h]

/-! ## The dynamic-id click counter and identifier -/

theorem runClicks_counter (ts : List Nat) (s : ManagerState) :
    (runClicks s ts).dynamicIdCounter = s.dynamicIdCounter + ts.length := by
  induction ts generalizing s with
  | nil => simp [runClicks]
  | cons t ts ih =>
      rw [runClicks, ih]
      simp [dynamicIdClick]
      omega

theorem runClicks_buttonId (ts : List Nat) (s : ManagerState) (h : ts ≠ []) :
    (runClicks s ts).buttonId
      = "dynamic-btn-" ++ toString (s.dynamicIdCounter + ts.length - 1) := by
  induction ts generalizing s with
  | nil => exact absurd rfl h
  | cons t ts ih =>
      cases ts with
      | nil => simp [runClicks, dynamicIdClick]
      | cons t2 ts2 =>
          have step1 : runClicks s (t :: t2 :: ts2) = runClicks (dynamicIdClick s t) (t2 :: ts2) := rfl
          rw [step1, ih (dynamicIdClick s t) (by simp)]
          have harith : (dynamicIdClick s t).dynamicIdCounter + (t2 :: ts2).length - 1
              = s.dynamicIdCounter + (t :: t2 :: ts2).length - 1 := by
            simp [dynamicIdClick]
            omega
          rw [harith]

/-! ## Reachable states keep the dynamic button findable by the reset lookup -/

theorem idFindable_step (s : ManagerState) (a : UiAction)
    (h : idFindable s.buttonId = true) : idFindable (step s a).buttonId = true := by
  cases a with
  | dynClick t => simpa [step, dynamicIdClick] using idFindable_dynamic (toString s.dynamicIdCounter)
  | ariaClickAct t => simpa [step, ariaClick] using h
  | ariaKeyAct key t =>
      by_cases hk : key = "Enter" ∨ key = " "
      · simpa [step, ariaKeydown, hk, ariaClick] using h
      · simpa [step, ariaKeydown, hk] using h
  | nestedClickAct i e t => simpa [step, nestedClick] using h
  | listClickAct i txt t => simpa [step, listClick] using h
  | stressAct t =>
      cases hc : s.stressContainerPresent
      · simpa [step, performStressTest, hc] using h
      · simpa [step, performStressTest, hc] using h
  | stressBtnAct b t => simpa [step, clickStressButton] using h
  | exportAct t1 t2 t3 => simpa [step, exportTestResults] using h
  | resetAct t =>
      cases hf : idFindable s.buttonId
      · rw [hf] at h
        exact absurd h (by simp)
      · simp [step, resetTests, hf]
        decide

theorem idFindable_run (as : List UiAction) (s : ManagerState)
    (h : idFindable s.buttonId = true) : idFindable (run s as).buttonId = true := by
  induction as generalizing s with
  | nil => exact h
  | cons a as ih =>
      rw [run]
      exact ih (step s a) (idFindable_step s a h)

theorem idFindable_initial : idFindable "dynamic-id-btn" = true := by decide

theorem resetTests_found (s : ManagerState) (now : Nat) (h : idFindable s.buttonId = true) :
    resetTests s now
      = { s with testResults := ([] : EventLog), dynamicIdCounter := 1, startTime := now
               , buttonId := "dynamic-id-btn", buttonLabel := "🔄 Dynamic ID Button" } := by
  simp [resetTests, h]

theorem resetTests_idem (s : ManagerState) (now : Nat) :
    resetTests (resetTests s now) now = resetTests s now := by
  cases hf : idFindable s.buttonId
  · simp [idFindable] at hf
    simp [resetTests, idFindable, hf]
  · simp [idFindable] at hf
    simp [resetTests, idFindable, hf]

/-! ## Facts about the nesting level and CSS path -/

theorem ancestorSteps_eq_chain (p : DomNode) :
    ancestorSteps p = (chainNodes p).length := by
  induction p with
  | body => rfl
  | node t i c q ih => simp [ancestorSteps, chainNodes, ih]

theorem stringAppend_assoc (a b c : String) : a ++ b ++ c = a ++ (b ++ c) := by
  cases a with | mk xs =>
  cases b with | mk ys =>
  cases c with | mk zs =>
  show String.mk (xs ++ ys ++ zs) = String.mk (xs ++ (ys ++ zs))
  rw [List.append_assoc]

theorem selectorFor_eq_claimSegment (t i : String) (c : List String) (p : DomNode) :
    selectorFor t i c = claimSegment (DomNode.node t i c p) := by
  unfold selectorFor claimSegment
  by_cases hi : i = ""
  · by_cases hc : c = []
    · simp [hi, hc]
    · simp [hi, hc, stringAppend_assoc]
  · simp [hi, stringAppend_assoc]

theorem cssPathSegments_eq_claim (e : DomNode) :
    cssPathSegments e = (chainNodes e).reverse.map claimSegment := by
  induction e with
  | body => rfl
  | node t i c p ih =>
      simp [cssPathSegments, chainNodes, ih, selectorFor_eq_claimSegment t i c p]

/-! ## Claim theorems -/

/-- C1 counterexample: for the empty click sequence (N = 0) on a fresh
state the counter is 0 + 1 as claimed, but the button identifier is
still `dynamic-id-btn`, not `dynamic-btn-0`, so the claim as stated
fails at N = 0. -/
theorem c1_zero_clicks_counterexample :
    (runClicks (initState 0) []).dynamicIdCounter = 0 + 1 ∧
    ¬ (runClicks (initState 0) []).buttonId = "dynamic-btn-" ++ toString (0 : Nat) := by
  constructor
  · rfl
  · decide

/-- C1 (amended): from any state whose counter is 1 — fresh or freshly
reset — a sequence of N ≥ 1 clicks on the dynamic-id button leaves the
counter at N + 1 and the button identifier at `dynamic-btn-N`; the
counter starts at 1 and is incremented exactly once per click. -/
theorem c1_dynamic_clicks (s : ManagerState) (ts : List Nat)
    (h1 : s.dynamicIdCounter = 1) (h2 : ts ≠ []) :
    (runClicks s ts).dynamicIdCounter = ts.length + 1 ∧
    (runClicks s ts).buttonId = "dynamic-btn-" ++ toString ts.length := by
  constructor
  · rw [runClicks_counter, h1]
    omega
  · rw [runClicks_buttonId ts s h2, h1]
    have harith : 1 + ts.length - 1 = ts.length := by omega
    rw [harith]

/-- C1 witness: one click at time 5 on the fresh state gives counter 2
and identifier `dynamic-btn-1`. -/
theorem c1_dynamic_clicks_witness :
    (initState 0).dynamicIdCounter = 1 ∧ ([5] : List Nat) ≠ [] ∧
    ((runClicks (initState 0) [5]).dynamicIdCounter = ([5] : List Nat).length + 1 ∧
     (runClicks (initState 0) [5]).buttonId = "dynamic-btn-" ++ toString ([5] : List Nat).length) :=
  ⟨rfl, by decide, c1_dynamic_clicks (initState 0) [5] rfl (by decide)⟩

/-- C2: after any sequence of `logEvent` calls starting from the empty
log, the total event count the metrics renderer computes and displays
equals the sum of the sequence lengths over all keys of the event log,
the displayed event-type count equals the number of keys, and that sum
equals the number of calls made. -/
theorem c2_metrics_invariant (calls : List (String × EventData)) (st now : Nat) :
    (updateMetricsDisplay (logMany calls []) st now).totalEvents
        = ((logMany calls []).map fun p => p.2.length).sum ∧
    (updateMetricsDisplay (logMany calls []) st now).eventTypes = (logMany calls []).length ∧
    ((logMany calls []).map fun p => p.2.length).sum = calls.length := by
  refine ⟨totalEventCount_eq_sum _, rfl, ?_⟩
  simpa using sum_logMany calls []

/-- C3: after any prior interaction sequence from a fresh state,
`resetTests` empties the event log, resets the counter to 1 and the
session clock to the reset time, restores the dynamic-id button's
identifier and label to their original values, and is idempotent. -/
theorem c3_reset_restores (t0 now : Nat) (as : List UiAction) :
    (resetTests (run (initState t0) as) now).testResults = [] ∧
    (resetTests (run (initState t0) as) now).dynamicIdCounter = 1 ∧
    (resetTests (run (initState t0) as) now).startTime = now ∧
    (resetTests (run (initState t0) as) now).buttonId = (initState t0).buttonId ∧
    (resetTests (run (initState t0) as) now).buttonLabel = (initState t0).buttonLabel ∧
    resetTests (resetTests (run (initState t0) as) now) now
      = resetTests (run (initState t0) as) now := by
  have hfind : idFindable (run (initState t0) as).buttonId = true :=
    idFindable_run as (initState t0) idFindable_initial
  have hreset := resetTests_found (run (initState t0) as) now hfind
  refine ⟨?_, ?_, ?_, ?_, ?_, resetTests_idem _ now⟩ <;> rw [hreset] <;> rfl

/-- C4: the exported object carries exactly the live event log, the
duration, the ISO-8601 timestamp of the export instant, and a
`totalEvents` equal to the sum of the sequence lengths over all keys of
the log at export time; the download file name contains the current
epoch-millisecond timestamp. -/
theorem c4_export_shape (s : ManagerState) (t1 t2 t3 : Nat) :
    (exportTestResults t1 t2 t3 s).1.1.testResults = s.testResults ∧
    (exportTestResults t1 t2 t3 s).1.1.testDuration = t1 - s.startTime ∧
    (exportTestResults t1 t2 t3 s).1.1.timestamp = toISOString t2 ∧
    (exportTestResults t1 t2 t3 s).1.1.totalEvents
        = (s.testResults.map fun p => p.2.length).sum ∧
    ∃ pre post, (exportTestResults t1 t2 t3 s).1.2 = pre ++ toString t3 ++ post :=
  ⟨rfl, rfl, rfl, totalEventCount_eq_sum _, "webfast-robustness-test-", ".json", rfl⟩

/-- C5: with the container present, the stress test fills the container
with exactly 5 sections × 3 subsections × 1 button (15 leaf buttons),
the button generated for section `i`, subsection `j` logs a
`stress-test-click` carrying exactly those indices when clicked, and
after building, the run appends exactly one `stress-test-performed`
record with `elementsCreated = 15`. -/
theorem c5_stress_generation (s s2 : ManagerState) (t t2 : Nat) (i : Fin 5) (j : Fin 3)
    (h : s.stressContainerPresent = true) :
    (performStressTest s t).stressContents = buildStressSections ∧
    buildStressSections.length = 5 ∧
    (buildStressSections.map fun sec => sec.subsections.length).sum = 15 ∧
    (buildStressSections.getD i.val emptySection).subsections.length = 3 ∧
    ((buildStressSections.getD i.val emptySection).subsections.getD j.val emptySubsection).button
        = { sectionIndex := i.val, subsectionIndex := j.val } ∧
    lookupLog (clickStressButton s2
          (((buildStressSections.getD i.val emptySection).subsections.getD
              j.val emptySubsection).button) t2).testResults "stress-test-click"
        = lookupLog s2.testResults "stress-test-click"
            ++ [EventData.stressTestClick i.val j.val t2] ∧
    lookupLog (performStressTest s t).testResults "stress-test-performed"
        = lookupLog s.testResults "stress-test-performed"
            ++ [EventData.stressTestPerformed t 15] := by
  have hbtn : ∀ (i : Fin 5) (j : Fin 3),
      ((buildStressSections.getD i.val emptySection).subsections.getD j.val emptySubsection).button
        = { sectionIndex := i.val, subsectionIndex := j.val } := by decide
  have hlen : ∀ (i : Fin 5),
      (buildStressSections.getD i.val emptySection).subsections.length = 3 := by decide
  refine ⟨by simp [performStressTest, h], by decide, by decide, hlen i, hbtn i j, ?_, ?_⟩
  · rw [hbtn i j]
    exact lookupLog_logEvent_self _ _ _
  · simp only [performStressTest, h, if_true]
    exact lookupLog_logEvent_self _ _ _

/-- C5 witness: instantiated at the fresh state (container present),
section 2, subsection 1, stress run at time 3, click at time 7. -/
theorem c5_stress_generation_witness :
    (initState 0).stressContainerPresent = true ∧
    ((performStressTest (initState 0) 3).stressContents = buildStressSections ∧
     buildStressSections.length = 5 ∧
     (buildStressSections.map fun sec => sec.subsections.length).sum = 15 ∧
     (buildStressSections.getD 2 emptySection).subsections.length = 3 ∧
     ((buildStressSections.getD 2 emptySection).subsections.getD 1 emptySubsection).button
         = { sectionIndex := 2, subsectionIndex := 1 } ∧
     lookupLog (clickStressButton (initState 0)
           (((buildStressSections.getD 2 emptySection).subsections.getD
               1 emptySubsection).button) 7).testResults "stress-test-click"
         = lookupLog (initState 0).testResults "stress-test-click"
             ++ [EventData.stressTestClick 2 1 7] ∧
     lookupLog (performStressTest (initState 0) 3).testResults "stress-test-performed"
         = lookupLog (initState 0).testResults "stress-test-performed"
             ++ [EventData.stressTestPerformed 3 15]) :=
  ⟨rfl, c5_stress_generation (initState 0) (initState 0) 3 7 ⟨2, by decide⟩ ⟨1, by decide⟩ rfl⟩

/-- C6: keyboard activation with Enter or with space on the ARIA button
produces exactly the same state change as a pointer click at the same
instant, and that click appends an `aria-button-click` record carrying
the element's role, tag name and the instant. -/
theorem c6_keyboard_click_equiv (s : ManagerState) (t : Nat) :
    ariaKeydown "Enter" s t = ariaClick s t ∧
    ariaKeydown " " s t = ariaClick s t ∧
    lookupLog (ariaClick s t).testResults "aria-button-click"
        = lookupLog s.testResults "aria-button-click"
            ++ [EventData.ariaButtonClick s.ariaRole s.ariaTagName t] := by
  refine ⟨?_, ?_, lookupLog_logEvent_self _ _ _⟩
  · rw [ariaKeydown, if_pos (Or.inl rfl)]
  · rw [ariaKeydown, if_pos (Or.inr rfl)]

/-- C7 counterexample: with session clock 0 and render time 1500 the
renderer displays 2 seconds (`Math.round(1.5) = 2`), not
`⌊1500 / 1000⌋ = 1`, so flooring is not what the code does. -/
theorem c7_duration_counterexample :
    (0 : Nat) ≤ 1500 ∧
    (updateMetricsDisplay [] 0 1500).durationSecs = 2 ∧
    ¬ (updateMetricsDisplay [] 0 1500).durationSecs = (1500 - 0) / 1000 := by
  decide

/-- C7 (amended): for render time `now ≥ startTime` the displayed
elapsed seconds equal the elapsed milliseconds rounded to the nearest
whole second with halves rounded up, `(now - startTime + 500) / 1000`,
not the floor `(now - startTime) / 1000`. -/
theorem c7_duration_rounding (log : EventLog) (st now : Nat) (_h : st ≤ now) :
    (updateMetricsDisplay log st now).durationSecs = (now - st + 500) / 1000 := rfl

/-- C7 witness: at session clock 0 and render time 1500 the displayed
duration is (1500 - 0 + 500) / 1000 = 2. -/
theorem c7_duration_rounding_witness :
    (0 : Nat) ≤ 1500 ∧
    (updateMetricsDisplay [] 0 1500).durationSecs = (1500 - 0 + 500) / 1000 :=
  ⟨by decide, c7_duration_rounding [] 0 1500 (by decide)⟩

/-- C8: clicking a nested element attached under the document body logs
a `nested-element-click` whose nesting level equals the number of
ancestor elements up to but excluding the body and whose CSS path joins
the segment chain from the body down to the element with " > ", each
segment being the lower-cased tag plus id-or-classes. -/
theorem c8_nested_click (s : ManagerState) (elementIndex : Nat)
    (tag idAttr : String) (classes : List String) (p : DomNode) (t : Nat) :
    lookupLog (nestedClick s elementIndex (DomNode.node tag idAttr classes p) t).testResults
        "nested-element-click"
      = lookupLog s.testResults "nested-element-click"
          ++ [EventData.nestedElementClick elementIndex
                (calculateNestingLevel (DomNode.node tag idAttr classes p))
                (generateCssPath (DomNode.node tag idAttr classes p)) t] ∧
    calculateNestingLevel (DomNode.node tag idAttr classes p) = (chainNodes p).length ∧
    generateCssPath (DomNode.node tag idAttr classes p)
      = String.intercalate " > "
          ((chainNodes (DomNode.node tag idAttr classes p)).reverse.map claimSegment) := by
  refine ⟨lookupLog_logEvent_self _ _ _, ancestorSteps_eq_chain p, ?_⟩
  rw [generateCssPath, cssPathSegments_eq_claim]

/-- C9: when the stress-test container is absent the stress test is a
no-op: the entire manager state, and in particular the event log, is
unchanged, so no `stress-test-performed` record is appended. -/
theorem c9_stress_absent (s : ManagerState) (t : Nat)
    (h : s.stressContainerPresent = false) :
    performStressTest s t = s := by
  simp [performStressTest, h]

/-- C9 witness: the stress test at time 3 on a fresh state whose
container is absent returns that state unchanged. -/
theorem c9_stress_absent_witness :
    ({ initState 0 with stressContainerPresent := false } : ManagerState).stressContainerPresent
        = false ∧
    performStressTest { initState 0 with stressContainerPresent := false } 3
      = { initState 0 with stressContainerPresent := false } :=
  ⟨rfl, c9_stress_absent _ 3 rfl⟩

/-- C10: exporting reads but never mutates the manager state: the state
after `exportTestResults` has the same event log, counter and session
clock, any subsequent interaction sequence behaves exactly as if the
export had not happened, and any number of repeated exports leaves the
state fixed. -/
theorem c10_export_pure (s : ManagerState) (t1 t2 t3 : Nat) (as : List UiAction) (n : Nat) :
    (exportTestResults t1 t2 t3 s).2.testResults = s.testResults ∧
    (exportTestResults t1 t2 t3 s).2.dynamicIdCounter = s.dynamicIdCounter ∧
    (exportTestResults t1 t2 t3 s).2.startTime = s.startTime ∧
    run (exportTestResults t1 t2 t3 s).2 as = run s as ∧
    exportNTimes n s = s := by
  refine ⟨rfl, rfl, rfl, rfl, ?_⟩
  induction n with
  | zero => rfl
  | succ n ih => exact ih
